import Mathlib

/-!
Verification of the antigravity-swarm supervisor kernel.

Shallow embedding of the Python sources under scripts/ into Lean:
pure string processing is translated directly, stateful code becomes
explicit state passing, filesystem faults (a failing rename) become an
explicit fault parameter, and wall-clock times and float-valued
environment settings are modelled over the rationals.  Environment
variables are modelled by the outcome of their parse: none means the
variable is unset, some none means it is set to an unparseable value,
and some (some q) means it parses to q.
-/

set_option maxRecDepth 4000

namespace Swarm

/-! ## String utilities

Python substring membership, str.strip, str.lower and the single
leading/trailing newline rule, modelled over lists of characters. -/

/-- Boolean prefix test on character lists. -/
def lpre : List Char → List Char → Bool
  | [], _ => true
  | _ :: _, [] => false
  | a :: as, b :: bs => a == b && lpre as bs

/-- Python substring containment: needle occurs somewhere in hay
(the empty needle is contained in everything). -/
def containsSub (needle : List Char) : List Char → Bool
  | [] => needle.isEmpty
  | c :: rest => lpre needle (c :: rest) || containsSub needle rest

/-- Substring containment lifted to strings; models the Python
expression needle in hay. -/
def strContains (hay needle : String) : Bool :=
  containsSub needle.data hay.data

/-- Python str.lower restricted to the ASCII range used by the code. -/
def pyLower (s : String) : String :=
  ⟨s.data.map Char.toLower⟩

/-- The whitespace characters stripped by Python str.strip. -/
def isPyWS (c : Char) : Bool :=
  c == ' ' || c == '\t' || c == '\n' || c == '\x0d' || c == '\x0b' || c == '\x0c'

/-- Python str.strip on a character list: drop whitespace from both ends. -/
def pyStripL (l : List Char) : List Char :=
  ((l.dropWhile isPyWS).reverse.dropWhile isPyWS).reverse

/-- Python str.strip on strings. -/
def pyStrip (s : String) : String :=
  ⟨pyStripL s.data⟩

/-- The WRITE_FILE post-processing of dispatch_agent.py lines 381 to 384:
drop one leading newline and one trailing newline if present. -/
def stripOneNL (l : List Char) : List Char :=
  let l1 := if l.head? = some '\n' then l.tail else l
  if l1.getLast? = some '\n' then l1.dropLast else l1

/-! ## Audit log (scripts/core/audit.py)

AuditLog.record synthesises a failure_class for error events whose
metadata does not already carry one (lines 17 to 28). -/

/-- The failure-class synthesis of AuditLog.record: substring match on
the lowercased detail string. -/
def classifyFailure (detail : String) : String :=
  if strContains (pyLower detail) "config" || strContains (pyLower detail) "yaml" then
    "config_error"
  else if strContains (pyLower detail) "timeout" then "timeout_error"
  else if strContains (pyLower detail) "mailbox" then "mailbox_error"
  else if strContains (pyLower detail) "process exited" ||
          strContains (pyLower detail) "returncode" then "process_error"
  else "unknown_error"

/-- Metadata carried by an audit event, as an association list of
string keys and values (the Python dict, restricted to string values
since failure_class handling only reads and writes strings). -/
def Meta := List (String × String)

instance : DecidableEq Meta := by
  unfold Meta
  infer_instance

/-- Dictionary lookup on metadata. -/
def metaLookup (m : Meta) (k : String) : Option String :=
  match m with
  | [] => none
  | (k0, v) :: rest => if k0 = k then some v else metaLookup rest k

/-- AuditLog.record, restricted to the metadata it writes: for error
events without an explicit failure_class the synthesised class is
added, otherwise the metadata is passed through unchanged
(audit.py lines 16 to 28). -/
def recordMeta (event_type detail : String) (meta : Meta) : Meta :=
  if event_type = "error" ∧ metaLookup meta "failure_class" = none then
    ("failure_class", classifyFailure detail) :: meta
  else
    meta

/-- Number of failure_class keys in a metadata dictionary. -/
def metaCount (m : Meta) (k : String) : Nat :=
  (m.filter (fun p => p.1 = k)).length

/-! ## Environment-variable models (orchestrator.py main, lines 841 to 869)

A float environment variable is modelled by its parse outcome over the
rationals; an int variable over the integers. -/

/-- Parse outcome of an environment variable: unset, set but
unparseable, or parsed to a value. -/
def EnvVal (α : Type) := Option (Option α)

/-- os.environ.get with default plus float() with a ValueError fall
back (the pattern of orchestrator.py around each setting). -/
def envOr {α : Type} (e : EnvVal α) (dflt : α) : α :=
  match e with
  | none => dflt
  | some none => dflt
  | some (some v) => v

/-- AG_SWARM_MAX_RETRIES handling (orchestrator.py lines 841 to 845):
parse with default 1, then clamp into the range 0 to 5. -/
def maxRetriesOf (e : EnvVal Int) : Int :=
  max 0 (min (envOr e 1) 5)

/-- AG_SWARM_WATCHDOG_SECONDS handling (orchestrator.py lines 847 to
851): parse with default 90, then floor at 10. -/
def watchdogTimeoutOf (e : EnvVal ℚ) : ℚ :=
  max 10 (envOr e 90)

/-- AG_SWARM_WATCHDOG_GRACE_SECONDS handling (orchestrator.py lines 865
to 869): parse with default 15, then floor at 3. -/
def watchdogGraceOf (e : EnvVal ℚ) : ℚ :=
  max 3 (envOr e 15)

/-- AG_SWARM_RESUME_STALE_SECONDS handling (orchestrator.py lines 655
to 659): parse with default 1800, then floor at 0. -/
def resumeStaleSecondsOf (e : EnvVal ℚ) : ℚ :=
  max 0 (envOr e 1800)

/-! ## Mailbox (scripts/core/mailbox.py)

One message file is a filename together with its parse outcome
(none models a json.JSONDecodeError or KeyError on load); the mailbox
filesystem is the inbox and processed directories.  Rename faults are
an explicit parameter: renameFails gives the filenames whose move to
processed/ raises OSError. -/

/-- A message file in an inbox: its filename and the message content it
parses to, or none when parsing raises. -/
structure MsgFile where
  name : String
  parsed : Option String
deriving DecidableEq

/-- The inbox and processed directories of one mailbox. -/
structure MailboxFS where
  inbox : List MsgFile
  processed : List MsgFile
deriving DecidableEq

/-- Insert a file into a name-sorted list (poll iterates
sorted(glob(...))). -/
def insFile (f : MsgFile) : List MsgFile → List MsgFile
  | [] => [f]
  | g :: rest => if f.name < g.name then f :: g :: rest else g :: insFile f rest

/-- Sort files by filename, as the lexical sort of poll does. -/
def sortFiles : List MsgFile → List MsgFile
  | [] => []
  | f :: rest => insFile f (sortFiles rest)

/-- One pass of Mailbox.poll over the sorted file list
(mailbox.py lines 104 to 118).  For each file, in order: a parse
failure skips the file and leaves it in the inbox; on a successful
parse the message is appended to the result and then the rename to
processed/ is attempted; a failing rename is swallowed by the except
clause, leaving the file in the inbox although the message was already
appended.  Returns (messages, files left in inbox, files moved). -/
def pollGo (renameFails : String → Bool) :
    List MsgFile → List String × List MsgFile × List MsgFile
  | [] => ([], [], [])
  | f :: rest =>
    let (ms, rem, moved) := pollGo renameFails rest
    match f.parsed with
    | none => (ms, f :: rem, moved)
    | some m =>
      if renameFails f.name then (m :: ms, f :: rem, moved)
      else (m :: ms, rem, f :: moved)

/-- Mailbox.poll: read all unprocessed messages in filename order and
move each to processed/, with the fault behaviour of pollGo. -/
def poll (renameFails : String → Bool) (fs : MailboxFS) : List String × MailboxFS :=
  let (ms, rem, moved) := pollGo renameFails (sortFiles fs.inbox)
  (ms, ⟨rem, fs.processed ++ moved⟩)

/-- A send performed by Mailbox.send: sender, recipient inbox, message
type and content. -/
structure SendRec where
  sender : String
  recipient : String
  msgType : String
  content : String
deriving DecidableEq

/-- Mailbox.broadcast (mailbox.py lines 91 to 96): one send per listed
agent whose name differs from the owning agent name. -/
def broadcastSends (selfName : String) (all_agents : List String)
    (msgType content : String) : List SendRec :=
  (all_agents.filter (fun a => a ≠ selfName)).map
    (fun a => ⟨selfName, a, msgType, content⟩)

/-- The agent id built by SubAgentRunner.build_command
(orchestrator.py line 188): the lowercased agent name at the team. -/
def buildAgentId (name team : String) : String :=
  pyLower name ++ "@" ++ team

/-- The mailbox name the worker derives from its --agent-id flag
(dispatch_agent.py line 630): the part before the first at sign. -/
def workerName (agentId : String) : String :=
  ⟨agentId.data.takeWhile (fun c => c ≠ '@')⟩

/-- Execution of one complete BROADCAST tag by the worker
(dispatch_agent.py lines 470 to 491): strip the payload, skip it with
an audited error when it exceeds 64 KiB, otherwise broadcast it to the
discovered roster unless the roster is empty. -/
def broadcastTagSends (selfName : String) (roster : List String)
    (payload : String) : List SendRec :=
  let content := pyStrip payload
  if content.length > 65536 then []
  else if roster = [] then []
  else broadcastSends selfName roster "broadcast" content

/-- Number of sends in a batch addressed to a given inbox name. -/
def recvCount (sends : List SendRec) (b : String) : Nat :=
  (sends.filter (fun s => s.recipient = b)).length

/-! ## Mission store (scripts/core/mission.py)

The MissionState dataclass.  The fields failure_reason and ended_at,
and the methods is_stale and mark_failed, are called by
orchestrator.py but absent from scripts/core/mission.py; they are
modelled from the spec (section 3 mission entity and section 4.5
startup rules). -/

/-- One agent entry of the mission record; get calls on the Python
dict give optional fields. -/
structure MissionAgent where
  name : Option String
  status : Option String
deriving DecidableEq

/-- The durable mission record.  Fields through team_name are the
dataclass fields of mission.py; failure_reason and ended_at are
modelled from the spec (marked optional there), since the orchestrator
writes them but the src dataclass lacks them. -/
structure MissionState where
  mission_id : String
  description : String
  started_at : ℚ
  status : String
  agents : List MissionAgent
  attempt : Int
  team_name : String
  failure_reason : Option String
  ended_at : Option ℚ
deriving DecidableEq

/-- MissionState.is_resumable (mission.py lines 68 to 71): status is
running or paused and some agent status is neither completed nor
failed (a missing status key counts as not terminal). -/
def MissionState.is_resumable (m : MissionState) : Bool :=
  (m.status == "running" || m.status == "paused") &&
  m.agents.any (fun a => a.status ≠ some "completed" && a.status ≠ some "failed")

/-- Modelled from the spec: MissionState.is_stale is called by
orchestrator.py line 666 but missing from mission.py; per the spec a
mission is stale when its age exceeds the threshold. -/
def MissionState.is_stale (m : MissionState) (now threshold : ℚ) : Bool :=
  now - m.started_at > threshold

/-- Modelled from the spec: MissionState.mark_failed is called by
orchestrator.py line 667 but missing from mission.py; per the spec the
mission is marked failed with the given reason and persisted, with
ended_at set on reaching a terminal status. -/
def MissionState.mark_failed (m : MissionState) (reason : String) (now : ℚ) : MissionState :=
  { m with status := "failed", failure_reason := some reason, ended_at := some now }

/-- Outcome of the --resume branch of main (orchestrator.py lines 661
to 672): exit 1 without persisting when no resumable mission exists,
exit 1 after persisting the mission marked failed when it is stale,
otherwise continue with the attempt counter incremented and saved. -/
inductive ResumeOutcome where
  | exitNoMission : ResumeOutcome
  | exitStale (persisted : MissionState) : ResumeOutcome
  | resumed (persisted : MissionState) : ResumeOutcome
deriving DecidableEq

/-- The --resume branch of main as a function of the loaded mission,
the current time and the stale threshold. -/
def resumePath (loaded : Option MissionState) (now threshold : ℚ) : ResumeOutcome :=
  match loaded with
  | none => .exitNoMission
  | some m =>
    if ¬ m.is_resumable then .exitNoMission
    else if m.is_stale now threshold then .exitStale (m.mark_failed "stale_resume_timeout" now)
    else .resumed { m with attempt := m.attempt + 1 }

/-- Process exit code of a resume outcome: both exit branches call
sys.exit(1); the resumed branch continues the run. -/
def ResumeOutcome.exitCode : ResumeOutcome → Option Nat
  | .exitNoMission => some 1
  | .exitStale _ => some 1
  | .resumed _ => none

/-! ## Supervisor runner state (orchestrator.py SubAgentRunner and main)

The dynamic fields of one SubAgentRunner that the claims are about,
and the state updates the main loop applies to them. -/

/-- The dynamic per-agent state owned by the supervisor. -/
structure Runner where
  name : String
  mode : String
  status : String
  isRunning : Bool
  retryCount : Nat
  retryable : Bool
  stopMode : String
  sawCompletionSignal : Bool
  failureReason : String
deriving DecidableEq

/-- The stop modes treated as operator- or shutdown-initiated when the
backend death handler computes retryable (orchestrator.py lines 1222
and 1226). -/
def neutralStop (stopMode : String) : Bool :=
  !(stopMode == "force_kill" || stopMode == "graceful_shutdown" ||
    stopMode == "watchdog_soft_shutdown")

/-- The per-agent update of check_backend_alive_many when the backend
reports a running agent dead (orchestrator.py lines 1202 to 1228):
return code 0 completes the agent; an unknown return code completes it
only when a completion signal was seen, failing it with reason
backend_dead_unknown_rc otherwise; any other return code fails it with
reason process_exit_ followed by the code. -/
def applyBackendDeath (r : Runner) (rc : Option Int) : Runner :=
  if r.isRunning then
    match rc with
    | some 0 =>
      { r with isRunning := false, status := "completed", failureReason := "",
               retryable := false }
    | none =>
      if r.sawCompletionSignal then
        { r with isRunning := false, status := "completed", failureReason := "",
                 retryable := false }
      else
        { r with isRunning := false, status := "failed",
                 failureReason := "backend_dead_unknown_rc",
                 retryable := neutralStop r.stopMode }
    | some n =>
      { r with isRunning := false, status := "failed",
               failureReason := "process_exit_" ++ toString n,
               retryable := neutralStop r.stopMode }
  else r

/-- Sender correlation of poll_leader_inbox (orchestrator.py line
1158): the runner matches when its name equals the sender exactly or
after lowercasing. -/
def senderMatches (rName sender : String) : Bool :=
  rName == sender || pyLower rName == sender

/-- The completion-signal part of poll_leader_inbox (orchestrator.py
lines 1161 to 1165): a status_update from a matching sender whose
content contains the sentinel sets saw_completion_signal. -/
def updateSawFlag (r : Runner) (sender msgType content : String) : Runner :=
  if senderMatches r.name sender ∧ msgType = "status_update" ∧
     strContains content "__AGENT_COMPLETED__" = true then
    { r with sawCompletionSignal := true }
  else r

/-! ## Roster validation (orchestrator.py validate_config_data, main) -/

/-- The six required prompt sections (orchestrator.py lines 54 to 61). -/
def requiredSections : List String :=
  ["1. TASK", "2. EXPECTED OUTCOME", "3. REQUIRED TOOLS",
   "4. MUST DO", "5. MUST NOT DO", "6. CONTEXT"]

/-- One subagent entry of the roster file, each key optional as in the
Python dict. -/
structure SubagentEntry where
  name : Option String
  color : Option String
  model : Option String
  mode : Option String
  prompt : Option String
deriving DecidableEq

/-- The errors validate_config_data collects for one entry
(orchestrator.py lines 627 to 640): a missing-key token for each of
name, prompt, mode and model, in that order, then a missing-section
token for each required section absent from the prompt. -/
def agentErrors (i : Nat) (a : SubagentEntry) : List String :=
  (if a.name = none then ["agent_" ++ toString i ++ "_missing_name"] else []) ++
  (if a.prompt = none then ["agent_" ++ toString i ++ "_missing_prompt"] else []) ++
  (if a.mode = none then ["agent_" ++ toString i ++ "_missing_mode"] else []) ++
  (if a.model = none then ["agent_" ++ toString i ++ "_missing_model"] else []) ++
  (requiredSections.filterMap (fun s =>
    if strContains (a.prompt.getD "") s then none
    else some ("agent_" ++ toString i ++ "_prompt_missing_section:" ++ s)))

/-- Per-entry errors accumulated in enumeration order. -/
def validateFrom (i : Nat) : List SubagentEntry → List String
  | [] => []
  | a :: rest => agentErrors i a ++ validateFrom (i + 1) rest

/-- validate_config_data on the subagents list (orchestrator.py lines
618 to 644): missing_subagents for an empty list, otherwise the
per-entry errors followed by missing_quality_validator when no entry
is named Quality_Validator. -/
def validate_config_data (subagents : List SubagentEntry) : List String :=
  if subagents = [] then ["missing_subagents"]
  else
    validateFrom 0 subagents ++
    (if subagents.any (fun a => a.name = some "Quality_Validator") then []
     else ["missing_quality_validator"])

/-- The pre-run validation gate of main (orchestrator.py lines 711 to
717): a nonempty error list halts via fail_with_hook with the stable
token invalid_subagent_config and exit code 1 before any agent is
spawned; an empty list lets the run proceed to spawning. -/
def preRunValidation (subagents : List SubagentEntry) :
    Except (String × List String) Unit :=
  match validate_config_data subagents with
  | [] => .ok ()
  | errs => .error ("invalid_subagent_config", errs.take 8)

/-! ## Supervisor loop transition system (orchestrator.py main)

The actions of the main loop that touch the retry-relevant fields of
one agent, after its initial phase spawn.  Time conditions (watchdog
staleness, the grace period, the hard-timeout clock) are abstracted
into when an action fires, which only widens the set of traces the
invariants are proved over. -/

/-- One supervisor-loop action affecting a single agent. -/
inductive Act where
  | backendDead (rc : Option Int) : Act
  | watchdogSoft : Act
  | watchdogFail : Act
  | retryTick : Act
  | killByUser : Act
  | gracefulRequest : Act
  | shutdownResponse : Act
  | hardTimeout : Act
deriving DecidableEq

/-- Supervisor state for one agent: the runner record and the
quit_requested flag. -/
structure SupState where
  runner : Runner
  quit : Bool
deriving DecidableEq

/-- The state resets spawn_runner applies (orchestrator.py lines 885
to 894); retry_count is not touched by a spawn. -/
def spawnReset (r : Runner) : Runner :=
  { r with status := "running", isRunning := true, failureReason := "",
           retryable := false, stopMode := "none",
           sawCompletionSignal := false }

/-- One supervisor-loop step for one agent.  Guards are the state
conditions of the source: apply_watchdog lines 935 to 958 (running,
parallel-mode, stop-mode dispatch), maybe_retry_runner lines 904 to
929 (not quitting, failed, retryable, retry budget), the k and x key
handlers lines 1119 to 1146 (running), poll_leader_inbox lines 1166
to 1173 (shutdown_response, unguarded), enforce_hard_timeout lines
975 to 1005 (sets quit, fails every running agent). -/
def step (maxR : Int) (a : Act) (s : SupState) : SupState :=
  match a with
  | .backendDead rc => ⟨applyBackendDeath s.runner rc, s.quit⟩
  | .watchdogSoft =>
    if s.runner.isRunning = true ∧ s.runner.mode ≠ "serial" ∧
       s.runner.mode ≠ "validator" ∧ s.runner.stopMode ≠ "watchdog_soft_shutdown" then
      ⟨{ s.runner with stopMode := "watchdog_soft_shutdown" }, s.quit⟩
    else s
  | .watchdogFail =>
    if s.runner.isRunning = true ∧ s.runner.mode ≠ "serial" ∧
       s.runner.mode ≠ "validator" ∧ s.runner.stopMode = "watchdog_soft_shutdown" then
      ⟨{ s.runner with isRunning := false, status := "failed",
                       failureReason := "watchdog_timeout", retryable := true }, s.quit⟩
    else s
  | .retryTick =>
    if s.quit = false ∧ s.runner.status = "failed" ∧ s.runner.retryable = true ∧
       (s.runner.retryCount : Int) < maxR then
      ⟨spawnReset { s.runner with retryCount := s.runner.retryCount + 1 }, s.quit⟩
    else s
  | .killByUser =>
    if s.runner.isRunning = true then
      ⟨{ s.runner with status := "shutdown", isRunning := false,
                       stopMode := "force_kill", failureReason := "killed_by_user",
                       retryable := false }, s.quit⟩
    else s
  | .gracefulRequest =>
    if s.runner.isRunning = true then
      ⟨{ s.runner with stopMode := "graceful_shutdown", retryable := false }, s.quit⟩
    else s
  | .shutdownResponse =>
    ⟨{ s.runner with status := "shutdown", isRunning := false, retryable := false },
     s.quit⟩
  | .hardTimeout =>
    if s.runner.isRunning = true then
      ⟨{ s.runner with isRunning := false, status := "failed",
                       failureReason := "hard_timeout", retryable := false,
                       stopMode := "hard_timeout" }, true⟩
    else ⟨s.runner, true⟩

/-- Run a sequence of supervisor-loop actions. -/
def runActs (maxR : Int) (acts : List Act) (s : SupState) : SupState :=
  acts.foldl (fun t a => step maxR a t) s

/-- The fresh runner state of SubAgentRunner.__init__ followed by the
initial phase spawn: retry_count starts at 0. -/
def initialRunner (name mode : String) : Runner :=
  spawnReset
    { name := name, mode := mode, status := "pending", isRunning := false,
      retryCount := 0, retryable := false, stopMode := "none",
      sawCompletionSignal := false, failureReason := "pending" }

/-! ## Streaming side-effect parser (dispatch_agent.py lines 351 to 506)

The four tag regexes all have the shape literal opener, optional
quoted attribute, lazy content, literal closer, with DOTALL.  Python
regex semantics for this shape are deterministic: a match starts at
the earliest position where the opener matches, the attribute (when
present) is the nonempty run of non-quote characters ending at the
next quote which must be followed by two closing angle brackets, and
the lazy content ends at the first occurrence of the closer.
finditer yields the non-overlapping left-to-right matches and sub
removes the same matches, which the extractor below computes in one
pass. -/

/-- First occurrence split: when lit occurs in s, the part before the
first occurrence and the part after it. -/
def splitFirst (lit : List Char) : List Char → Option (List Char × List Char)
  | [] => if lpre lit [] then some ([], []) else none
  | c :: rest =>
    if lpre lit (c :: rest) then some ([], (c :: rest).drop lit.length)
    else (splitFirst lit rest).map (fun p => (c :: p.1, p.2))

/-- Match the tag pattern at the head of s, giving the attribute (empty
for attribute-free patterns), the content and the remainder of s. -/
def tagMatchAt (openL : List Char) (withAttr : Bool) (closeL : List Char)
    (s : List Char) : Option (List Char × List Char × List Char) :=
  if lpre openL s then
    let s1 := s.drop openL.length
    if withAttr then
      let attr := s1.takeWhile (fun ch => ch != '"')
      let s2 := s1.dropWhile (fun ch => ch != '"')
      if attr = [] then none
      else if lpre ['"', '>', '>'] s2 then
        (splitFirst closeL (s2.drop 3)).map (fun pr => (attr, pr.1, pr.2))
      else none
    else
      (splitFirst closeL s1).map (fun pr => ([], pr.1, pr.2))
  else none

/-- Leftmost match of the tag pattern in s: the text before the match,
the attribute, the content and the text after the match. -/
def tagScan (openL : List Char) (withAttr : Bool) (closeL : List Char) :
    List Char → Option (List Char × List Char × List Char × List Char)
  | [] =>
    match tagMatchAt openL withAttr closeL [] with
    | some (a, c, r) => some ([], a, c, r)
    | none => none
  | ch :: rest =>
    match tagMatchAt openL withAttr closeL (ch :: rest) with
    | some (a, c, r) => some ([], a, c, r)
    | none =>
      match tagScan openL withAttr closeL rest with
      | some (p, a, c, r) => some (ch :: p, a, c, r)
      | none => none

/-- All non-overlapping leftmost matches together with the buffer with
those matches removed, the combined effect of finditer and sub.  Fuel
bounds the recursion; every successful match consumes at least the
opener, so one unit of fuel per character suffices. -/
def tagExtractF (openL : List Char) (withAttr : Bool) (closeL : List Char) :
    Nat → List Char → List (List Char × List Char) × List Char
  | 0, s => ([], s)
  | Nat.succ fuel, s =>
    match tagScan openL withAttr closeL s with
    | none => ([], s)
    | some (p, a, c, r) =>
      let (ms, res) := tagExtractF openL withAttr closeL fuel r
      ((a, c) :: ms, p ++ res)

/-- finditer plus sub for one tag pattern. -/
def tagExtract (openL : List Char) (withAttr : Bool) (closeL : List Char)
    (s : List Char) : List (List Char × List Char) × List Char :=
  tagExtractF openL withAttr closeL (s.length + 1) s

/-- Opener of the WRITE_FILE pattern. -/
def wfOpen : List Char := "<<WRITE_FILE path=\"".data

/-- Closer of the WRITE_FILE pattern. -/
def ewClose : List Char := "<<END_WRITE>>".data

/-- Opener of the RUN_COMMAND pattern. -/
def rcOpen : List Char := "<<RUN_COMMAND>>".data

/-- Closer of the RUN_COMMAND pattern. -/
def ecClose : List Char := "<<END_COMMAND>>".data

/-- Opener of the SEND_MESSAGE pattern. -/
def smOpen : List Char := "<<SEND_MESSAGE to=\"".data

/-- Closer of the SEND_MESSAGE pattern. -/
def emClose : List Char := "<<END_MESSAGE>>".data

/-- Opener of the BROADCAST pattern. -/
def bcOpen : List Char := "<<BROADCAST>>".data

/-- Closer of the BROADCAST pattern. -/
def ebClose : List Char := "<<END_BROADCAST>>".data

/-- A side effect executed (or audited) by the streaming parser. -/
inductive Effect where
  | fileWrite (path content : String) : Effect
  | writeTooLarge (path : String) (size : Nat) : Effect
  | commandExec (cmd : String) : Effect
  | commandTooLarge (size : Nat) : Effect
  | messageSent (recipient content : String) : Effect
  | messageTooLarge (recipient : String) (size : Nat) : Effect
  | broadcastSent (content : String) : Effect
  | broadcastTooLarge (size : Nat) : Effect
  | broadcastSkipped : Effect
  | orphanTags (markers : List String) : Effect
  | bufferTrimmed (dropped : Nat) : Effect
  | tailUnparsed (chars : Nat) : Effect
deriving DecidableEq

/-- Execution of one WRITE_FILE match (dispatch_agent.py lines 370 to
399): strip the content, audit an error when over 1 MiB, otherwise
drop one leading and one trailing newline and write the file. -/
def writeEffect (attr content : List Char) : Effect :=
  let c0 := pyStripL content
  if c0.length > 1048576 then .writeTooLarge ⟨attr⟩ c0.length
  else .fileWrite ⟨attr⟩ ⟨stripOneNL c0⟩

/-- Execution of one RUN_COMMAND match (lines 406 to 433). -/
def commandEffect (content : List Char) : Effect :=
  let c0 := pyStripL content
  if c0.length > 1048576 then .commandTooLarge c0.length else .commandExec ⟨c0⟩

/-- Execution of one SEND_MESSAGE match (lines 440 to 463). -/
def messageEffect (attr content : List Char) : Effect :=
  let c0 := pyStripL content
  if c0.length > 65536 then .messageTooLarge ⟨attr⟩ c0.length
  else .messageSent ⟨attr⟩ ⟨c0⟩

/-- Execution of one BROADCAST match (lines 470 to 491): the size check
precedes roster discovery, and an empty roster skips the send. -/
def broadcastEffect (roster : List String) (content : List Char) : Effect :=
  let c0 := pyStripL content
  if c0.length > 65536 then .broadcastTooLarge c0.length
  else if roster = [] then .broadcastSkipped
  else .broadcastSent ⟨c0⟩

/-- The orphan markers checked on the final parse (lines 494 to 496). -/
def orphanMarkers : List String :=
  ["<<WRITE_FILE", "<<RUN_COMMAND>>", "<<SEND_MESSAGE", "<<BROADCAST>>"]

/-- AgentLifecycle._parse_streaming: extract and execute all complete
WRITE_FILE, then RUN_COMMAND, then SEND_MESSAGE, then BROADCAST
matches, each pass working on the buffer left by the previous sub;
on a final parse, audit a warning naming the orphaned opening markers
still in the remaining buffer. -/
def parseStreaming (roster : List String) (buffer : List Char) (final : Bool) :
    List Effect × List Char :=
  let (wms, b1) := tagExtract wfOpen true ewClose buffer
  let (rms, b2) := tagExtract rcOpen false ecClose b1
  let (sms, b3) := tagExtract smOpen true emClose b2
  let (bms, b4) := tagExtract bcOpen false ebClose b3
  let effs :=
    wms.map (fun m => writeEffect m.1 m.2) ++
    rms.map (fun m => commandEffect m.2) ++
    sms.map (fun m => messageEffect m.1 m.2) ++
    bms.map (fun m => broadcastEffect roster m.2)
  let effs2 :=
    if final then
      match orphanMarkers.filter (fun m => containsSub m.data b4) with
      | [] => effs
      | ms => effs ++ [.orphanTags ms]
    else effs
  (effs2, b4)

/-- Python str.rfind with a start bound: the largest index at or after
start where the needle occurs. -/
def rfindFrom (needle hay : List Char) (start : Nat) : Option Nat :=
  ((List.range (hay.length + 1)).filter
    (fun i => decide (start ≤ i) && lpre needle (hay.drop i))).max?

/-- The buffer trim of _execute_task (lines 268 to 280): past 256 KiB,
cut at the last double angle bracket in the final 128 KiB (or at the
128 KiB boundary when there is none) and audit the dropped length;
a cut index of zero drops nothing. -/
def applyTrim (b : List Char) : List Effect × List Char :=
  if b.length > 262144 then
    let cutIdx := (rfindFrom ['<', '<'] b (b.length - 131072)).getD (b.length - 131072)
    if cutIdx > 0 then ([.bufferTrimmed cutIdx], b.drop cutIdx)
    else ([], b)
  else ([], b)

/-- The read loop of _execute_task on a given chunk schedule: append
each chunk to the buffer, parse, trim, and after the last chunk do the
final parse and audit a warning when the unparsed tail is nonblank
(lines 259 to 290). -/
def feedAux (roster : List String) : List String → List Char → List Effect
  | [], buf =>
    let (effs, tail) := parseStreaming roster buf true
    if pyStripL tail ≠ [] then effs ++ [.tailUnparsed tail.length] else effs
  | chunk :: rest, buf =>
    let (effs, b2) := parseStreaming roster (buf ++ chunk.data) false
    let (teffs, b3) := applyTrim b2
    effs ++ teffs ++ feedAux roster rest b3

/-- Feed a schedule of output chunks through the streaming parser,
starting from an empty buffer, with a final flush. -/
def feedSchedule (roster : List String) (chunks : List String) : List Effect :=
  feedAux roster chunks []

/-! ## Helper lemmas -/

/-- The failure-class synthesis only ever produces one of five classes. -/
theorem classifyFailure_mem (d : String) :
    classifyFailure d ∈
      ["config_error", "timeout_error", "mailbox_error", "process_error",
       "unknown_error"] := by
  unfold classifyFailure
  split_ifs <;> simp

/-- A key that lookup misses occurs zero times in the metadata. -/
theorem metaLookup_none_count (m : Meta) (k : String)
    (h : metaLookup m k = none) : metaCount m k = 0 := by
  induction m with
  | nil => rfl
  | cons p rest ih =>
    rw [metaLookup] at h
    by_cases hk : p.1 = k
    · simp [hk] at h
    · simp only [if_neg hk] at h
      simpa [metaCount, List.filter, hk] using ih h

/-! ## C9 -/

/-- C9 counterexample: the claim lists interrupted among the classes
synthesised from the detail string, but no detail string makes
AuditLog.record synthesise interrupted; that class only ever arrives
through explicit metadata. -/
theorem classify_never_interrupted :
    ¬ ∃ d : String, classifyFailure d = "interrupted" := by
  rintro ⟨d, hd⟩
  have h := classifyFailure_mem d
  rw [hd] at h
  simp at h

/-- C9 (amended): an error event recorded without an explicit
failure_class carries exactly one failure_class, drawn from the five
synthesised classes config_error, timeout_error, mailbox_error,
process_error, unknown_error, and each of the five is produced by
some detail string. -/
theorem error_failure_class_synthesis (detail : String) (m : Meta)
    (h : metaLookup m "failure_class" = none) :
    (metaLookup (recordMeta "error" detail m) "failure_class" =
       some (classifyFailure detail) ∧
     classifyFailure detail ∈
       ["config_error", "timeout_error", "mailbox_error", "process_error",
        "unknown_error"] ∧
     metaCount (recordMeta "error" detail m) "failure_class" = 1) ∧
    (classifyFailure "config" = "config_error" ∧
     classifyFailure "task_execution_timeout" = "timeout_error" ∧
     classifyFailure "mailbox_cleanup_failed" = "mailbox_error" ∧
     classifyFailure "Process exited with code 2" = "process_error" ∧
     classifyFailure "boom" = "unknown_error") := by
  refine ⟨⟨?_, classifyFailure_mem detail, ?_⟩, by decide⟩
  · simp [recordMeta, h, metaLookup]
  · have h0 := metaLookup_none_count m "failure_class" h
    simp [recordMeta, h, metaCount, List.filter] at h0 ⊢
    exact h0

/-- C9 witness: the synthesis theorem applied to a concrete error
event with metadata lacking a failure_class. -/
theorem error_failure_class_synthesis_witness :
    metaLookup (recordMeta "error" "watchdog oops" [("idle_seconds", "91")])
        "failure_class" = some (classifyFailure "watchdog oops") ∧
    classifyFailure "boom" = "unknown_error" :=
  ⟨(error_failure_class_synthesis "watchdog oops" [("idle_seconds", "91")]
      (by decide)).1.1,
   (error_failure_class_synthesis "watchdog oops" [("idle_seconds", "91")]
      (by decide)).2.2.2.2.2⟩

/-! ## C10 -/

/-- C10: whatever the watchdog environment variables hold, the
effective watchdog timeout is at least 10 seconds and the effective
grace at least 3 seconds, and an unparseable value falls back to 90
and 15 seconds respectively (an unset variable gives the same
defaults). -/
theorem watchdog_clamps :
    ∀ (e1 e2 : EnvVal ℚ),
      10 ≤ watchdogTimeoutOf e1 ∧ 3 ≤ watchdogGraceOf e2 ∧
      watchdogTimeoutOf (some none) = 90 ∧ watchdogGraceOf (some none) = 15 ∧
      watchdogTimeoutOf none = 90 ∧ watchdogGraceOf none = 15 := by
  intro e1 e2
  refine ⟨le_max_left _ _, le_max_left _ _, ?_, ?_, ?_, ?_⟩ <;>
    norm_num [watchdogTimeoutOf, watchdogGraceOf, envOr]

/-! ## C2 -/

/-- C2: resuming a resumable mission whose age exceeds the stale
threshold (default 1800 seconds) exits with code 1 and persists the
mission marked failed with reason stale_resume_timeout.  The
MissionState.is_stale and mark_failed parts are modelled from the
spec, since orchestrator.py calls them but mission.py lacks them. -/
theorem resume_stale_marks_failed_and_exits (m : MissionState) (now : ℚ)
    (e : EnvVal ℚ) (h1 : m.is_resumable = true)
    (h2 : now - m.started_at > resumeStaleSecondsOf e) :
    resumeStaleSecondsOf none = 1800 ∧
    (resumePath (some m) now (resumeStaleSecondsOf e)).exitCode = some 1 ∧
    resumePath (some m) now (resumeStaleSecondsOf e) =
      .exitStale (m.mark_failed "stale_resume_timeout" now) ∧
    (m.mark_failed "stale_resume_timeout" now).status = "failed" ∧
    (m.mark_failed "stale_resume_timeout" now).failure_reason =
      some "stale_resume_timeout" := by
  have hstale : m.is_stale now (resumeStaleSecondsOf e) = true := by
    simp [MissionState.is_stale, h2]
  refine ⟨by norm_num [resumeStaleSecondsOf, envOr], ?_, ?_, by
    simp [MissionState.mark_failed], by simp [MissionState.mark_failed]⟩ <;>
    simp [resumePath, h1, hstale, ResumeOutcome.exitCode]

/-- C2 witness: the spec scenario, a running mission with one running
and one pending agent, aged 1900 seconds against the default
threshold. -/
theorem resume_stale_witness :
    resumePath
      (some { mission_id := "m1", description := "demo", started_at := 100,
              status := "running",
              agents := [⟨some "A", some "running"⟩, ⟨some "B", some "pending"⟩],
              attempt := 1, team_name := "demo", failure_reason := none,
              ended_at := none })
      2000 (resumeStaleSecondsOf none) =
      .exitStale
        ((MissionState.mark_failed
          { mission_id := "m1", description := "demo", started_at := 100,
            status := "running",
            agents := [⟨some "A", some "running"⟩, ⟨some "B", some "pending"⟩],
            attempt := 1, team_name := "demo", failure_reason := none,
            ended_at := none }) "stale_resume_timeout" 2000) :=
  (resume_stale_marks_failed_and_exits _ 2000 none (by decide)
    (by norm_num [resumeStaleSecondsOf, envOr])).2.2.1

/-! ## C3 -/

/-- C3: when the backend reports a running agent dead, return code 0
gives status completed; a non-zero return code gives failed; an
unknown return code gives completed when a completion signal was
previously seen and otherwise failed with reason
backend_dead_unknown_rc; and a status_update from the agent whose
content contains the completion sentinel is what sets the signal. -/
theorem backend_death_classification (r : Runner) (n : Int)
    (sender content : String) (hr : r.isRunning = true) :
    (applyBackendDeath r (some 0)).status = "completed" ∧
    (n ≠ 0 → (applyBackendDeath r (some n)).status = "failed") ∧
    (r.sawCompletionSignal = true →
      (applyBackendDeath r none).status = "completed") ∧
    (r.sawCompletionSignal = false →
      (applyBackendDeath r none).status = "failed" ∧
      (applyBackendDeath r none).failureReason = "backend_dead_unknown_rc") ∧
    (senderMatches r.name sender = true →
      strContains content "__AGENT_COMPLETED__" = true →
      (updateSawFlag r sender "status_update" content).sawCompletionSignal
        = true) := by
  refine ⟨?_, ?_, ?_, ?_, ?_⟩
  · simp [applyBackendDeath, hr]
  · intro hn
    rcases r with ⟨_, _, _, _, _, _, _, _, _⟩
    simp_all [applyBackendDeath]
  · intro hs; simp [applyBackendDeath, hr, hs]
  · intro hs; simp [applyBackendDeath, hr, hs]
  · intro h1 h2; simp [updateSawFlag, h1, h2]

/-! ## C1 -/

/-- C1 (code-bug exhibit): Mailbox.poll appends a parsed message to
its result before attempting the move to processed/, and a failing
rename is swallowed.  On an inbox holding one well-formed message file
whose rename fails, poll returns the message while leaving the file in
the inbox unchanged, and a second poll returns the same message again,
against the at-most-once and moved-before-observed contract; with a
succeeding rename the file is moved exactly once. -/
theorem mailbox_poll_redelivers_on_failed_move :
    (poll (fun _ => true) ⟨[⟨"f1", some "m1"⟩], []⟩).1 = ["m1"] ∧
    (poll (fun _ => true) ⟨[⟨"f1", some "m1"⟩], []⟩).2 =
      (⟨[⟨"f1", some "m1"⟩], []⟩ : MailboxFS) ∧
    (poll (fun _ => true)
      (poll (fun _ => true) ⟨[⟨"f1", some "m1"⟩], []⟩).2).1 = ["m1"] ∧
    (poll (fun _ => false) ⟨[⟨"f1", some "m1"⟩], []⟩).2 =
      (⟨[], [⟨"f1", some "m1"⟩]⟩ : MailboxFS) := by
  decide

/-! ## C8 -/

/-- An entry with one of the four checked keys missing, or a required
section absent from its prompt, contributes at least one error
token. -/
theorem agentErrors_ne_nil (j : Nat) (a : SubagentEntry)
    (h : a.name = none ∨ a.prompt = none ∨ a.mode = none ∨ a.model = none ∨
         ∃ s ∈ requiredSections, strContains (a.prompt.getD "") s = false) :
    agentErrors j a ≠ [] := by
  intro hnil
  rw [agentErrors] at hnil
  have hX := (List.append_eq_nil.mp hnil).1
  have h5 := (List.append_eq_nil.mp hnil).2
  have hY := (List.append_eq_nil.mp hX).1
  have h4 := (List.append_eq_nil.mp hX).2
  have hZ := (List.append_eq_nil.mp hY).1
  have h3 := (List.append_eq_nil.mp hY).2
  have h1 := (List.append_eq_nil.mp hZ).1
  have h2 := (List.append_eq_nil.mp hZ).2
  rcases h with h | h | h | h | ⟨s, hs, hc⟩
  · rw [h] at h1; simp at h1
  · rw [h] at h2; simp at h2
  · rw [h] at h3; simp at h3
  · rw [h] at h4; simp at h4
  · have hmem : ("agent_" ++ toString j ++ "_prompt_missing_section:" ++ s) ∈
        requiredSections.filterMap (fun s =>
          if strContains (a.prompt.getD "") s then none
          else some ("agent_" ++ toString j ++ "_prompt_missing_section:" ++ s)) :=
      List.mem_filterMap.mpr ⟨s, hs, by rw [hc]; simp⟩
    rw [h5] at hmem
    simp at hmem

/-- A member with always-nonempty per-entry errors makes the
accumulated error list nonempty, from any starting index. -/
theorem validateFrom_ne_nil (l : List SubagentEntry) (a : SubagentEntry)
    (ha : a ∈ l) (h : ∀ j, agentErrors j a ≠ []) :
    ∀ i, validateFrom i l ≠ [] := by
  induction l with
  | nil => cases ha
  | cons b rest ih =>
    intro i hnil
    rw [validateFrom] at hnil
    rcases List.mem_cons.mp ha with rfl | hmem
    · exact h i (List.append_eq_nil.mp hnil).1
    · exact ih hmem (i + 1) (List.append_eq_nil.mp hnil).2

/-- C8 counterexample: a roster whose only entry has no color key, a
prompt with all six required sections, and the Quality_Validator
name, passes validation and the supervisor proceeds to spawn, so a
missing color key does not halt the run (the code checks only the
four keys name, prompt, mode and model). -/
theorem missing_color_passes_validation :
    (SubagentEntry.color
      ⟨some "Quality_Validator", none, some "gemini-2.5-pro", some "validator",
       some "1. TASK x 2. EXPECTED OUTCOME x 3. REQUIRED TOOLS x 4. MUST DO x 5. MUST NOT DO x 6. CONTEXT x"⟩
      = none) ∧
    preRunValidation
      [⟨some "Quality_Validator", none, some "gemini-2.5-pro", some "validator",
        some "1. TASK x 2. EXPECTED OUTCOME x 3. REQUIRED TOOLS x 4. MUST DO x 5. MUST NOT DO x 6. CONTEXT x"⟩]
      = .ok () := by
  constructor
  · rfl
  · rfl

/-- C8 (amended): a roster entry missing one of the four keys name,
prompt, mode or model (a missing color is not an error), or no entry
named Quality_Validator, or a prompt lacking a required section, makes
the supervisor halt before spawning with the stable
invalid_subagent_config token and exit code 1. -/
theorem roster_validation_halts (l : List SubagentEntry)
    (h : (∃ a ∈ l, a.name = none ∨ a.prompt = none ∨ a.mode = none ∨
            a.model = none ∨
            ∃ s ∈ requiredSections, strContains (a.prompt.getD "") s = false) ∨
         (∀ b ∈ l, b.name ≠ some "Quality_Validator")) :
    preRunValidation l =
      .error ("invalid_subagent_config", (validate_config_data l).take 8) ∧
    validate_config_data l ≠ [] := by
  have hne : validate_config_data l ≠ [] := by
    by_cases hl : l = []
    · subst hl; simp [validate_config_data]
    · rw [validate_config_data, if_neg hl]
      rcases h with ⟨a, ha, hcond⟩ | hq
      · intro hnil
        exact validateFrom_ne_nil l a ha
          (fun j => agentErrors_ne_nil j a hcond) 0
          (List.append_eq_nil.mp hnil).1
      · intro hnil
        have h2 := (List.append_eq_nil.mp hnil).2
        have hany : l.any (fun a => a.name = some "Quality_Validator") = false := by
          rw [List.any_eq_false]
          intro b hb
          simpa using hq b hb
        rw [hany] at h2
        simp at h2
  refine ⟨?_, hne⟩
  unfold preRunValidation
  split
  · rename_i hnil
    exact absurd hnil hne
  · rfl

/-- C8 witness: the halt theorem applied to a roster whose only entry
lacks the mode key. -/
theorem roster_validation_halts_witness :
    validate_config_data
      [⟨some "Quality_Validator", some "red", some "m", none, some "p"⟩] ≠ [] :=
  (roster_validation_halts
    [⟨some "Quality_Validator", some "red", some "m", none, some "p"⟩]
    (Or.inl ⟨_, List.mem_singleton.mpr rfl,
      Or.inr (Or.inr (Or.inl rfl))⟩)).2

/-! ## C6 -/

/-- In a duplicate-free agent list, filtering out the sender and then
keeping a different recipient leaves exactly one entry. -/
theorem filter_ne_filter_eq_length (roster : List String) (selfName b : String)
    (hnd : roster.Nodup) (hb : b ∈ roster) (hne : b ≠ selfName) :
    ((roster.filter (fun a => a ≠ selfName)).filter (fun a => a = b)).length
      = 1 := by
  induction roster with
  | nil => cases hb
  | cons r rest ih =>
    have hr : r ∉ rest := (List.nodup_cons.mp hnd).1
    have hrest : rest.Nodup := (List.nodup_cons.mp hnd).2
    rcases List.mem_cons.mp hb with rfl | hmem
    · have hzero :
          ((rest.filter (fun a => a ≠ selfName)).filter (fun a => a = b)).length
            = 0 := by
        rw [List.length_eq_zero, List.filter_eq_nil_iff]
        intro a hafil
        have ha_rest : a ∈ rest := List.mem_of_mem_filter hafil
        intro haeq
        have hab : a = b := by simpa using haeq
        exact hr (hab ▸ ha_rest)
      simp only [List.filter_cons]
      rw [if_pos (by simpa using hne)]
      simp only [List.filter_cons]
      rw [if_pos (by simp)]
      simpa using hzero
    · have hrb : r ≠ b := fun hrb => hr (hrb ▸ hmem)
      simp only [List.filter_cons]
      by_cases hrs : r = selfName
      · rw [if_neg (by simpa using hrs)]
        exact ih hrest hmem
      · rw [if_pos (by simpa using hrs)]
        simp only [List.filter_cons]
        rw [if_neg (by simpa using hrb)]
        exact ih hrest hmem

/-- C6 counterexample: the orchestrator lowercases the agent id it
passes to the worker, while the roster keeps original-case names, and
the broadcast self-exclusion compares exact strings; so in the roster
A, B, C, Q the emitter A (worker mailbox name a) broadcasts to its own
roster inbox A as well, where the claim expects A to receive
nothing. -/
theorem broadcast_reaches_mixed_case_self :
    workerName (buildAgentId "A" "team") = "a" ∧
    recvCount (broadcastTagSends "a" ["A", "B", "C", "Q"] "ping") "A" = 1 ∧
    recvCount (broadcastTagSends "a" ["A", "B", "C", "Q"] "ping") "B" = 1 := by
  decide

/-- C6 (amended): a complete BROADCAST tag whose stripped payload is
within 64 KiB sends exactly one message of type broadcast, carrying
the whitespace-stripped payload, to every roster agent whose name
differs (as an exact string) from the emitting worker mailbox name,
and none to the name equal to the worker mailbox name; the emitter
itself is excluded only when its roster name is exactly its
lowercased CLI name. -/
theorem broadcast_delivery_amended (selfName : String) (roster : List String)
    (payload : String) (b : String) (hnd : roster.Nodup) (hb : b ∈ roster)
    (hne : b ≠ selfName) (hsize : (pyStrip payload).length ≤ 65536)
    (hros : roster ≠ []) :
    recvCount (broadcastTagSends selfName roster payload) b = 1 ∧
    recvCount (broadcastTagSends selfName roster payload) selfName = 0 ∧
    ∀ m ∈ broadcastTagSends selfName roster payload,
      m.msgType = "broadcast" ∧ m.content = pyStrip payload ∧
        m.sender = selfName := by
  have hsends : broadcastTagSends selfName roster payload =
      broadcastSends selfName roster "broadcast" (pyStrip payload) := by
    rw [broadcastTagSends]
    rw [if_neg (by omega), if_neg hros]
  rw [hsends, broadcastSends]
  refine ⟨?_, ?_, ?_⟩
  · rw [recvCount, List.filter_map, List.length_map]
    exact filter_ne_filter_eq_length roster selfName b hnd hb hne
  · rw [recvCount, List.filter_map, List.length_map, List.length_eq_zero,
      List.filter_eq_nil_iff]
    intro a hafil
    simp only [Function.comp]
    have : a ≠ selfName := by simpa using List.of_mem_filter hafil
    simpa using this
  · intro m hm
    rcases List.mem_map.mp hm with ⟨a, _, rfl⟩
    exact ⟨rfl, rfl, rfl⟩

/-- C6 witness: the amended delivery theorem on a lowercase roster,
where the spec scenario holds as stated. -/
theorem broadcast_delivery_amended_witness :
    recvCount (broadcastTagSends "a" ["a", "b", "c", "q"] "ping") "b" = 1 ∧
    recvCount (broadcastTagSends "a" ["a", "b", "c", "q"] "ping") "a" = 0 :=
  ⟨(broadcast_delivery_amended "a" ["a", "b", "c", "q"] "ping" "b"
      (by decide) (by decide) (by decide) (by decide) (by decide)).1,
   (broadcast_delivery_amended "a" ["a", "b", "c", "q"] "ping" "b"
      (by decide) (by decide) (by decide) (by decide) (by decide)).2.1⟩

/-! ## C5 -/

/-- The backend-death handler never touches retry_count. -/
theorem applyBackendDeath_retryCount (r : Runner) (rc : Option Int) :
    (applyBackendDeath r rc).retryCount = r.retryCount := by
  unfold applyBackendDeath
  split
  · split
    · rfl
    · split <;> rfl
    · rfl
  · rfl

/-- The backend-death handler is the identity on a non-running agent. -/
theorem applyBackendDeath_not_running (r : Runner) (rc : Option Int)
    (h : r.isRunning = false) : applyBackendDeath r rc = r := by
  unfold applyBackendDeath
  rw [if_neg (by simp [h])]

/-- When the backend reports death of a running agent whose stop mode
is graceful_shutdown, the agent ends not running and not retryable,
whatever the return code. -/
theorem applyBackendDeath_graceful (r : Runner) (rc : Option Int)
    (hrun : r.isRunning = true) (hg : r.stopMode = "graceful_shutdown") :
    (applyBackendDeath r rc).isRunning = false ∧
    (applyBackendDeath r rc).retryable = false := by
  unfold applyBackendDeath
  rw [if_pos hrun]
  split
  · exact ⟨rfl, rfl⟩
  · split
    · exact ⟨rfl, rfl⟩
    · refine ⟨rfl, ?_⟩
      simp [neutralStop, hg]
  · refine ⟨rfl, ?_⟩
    simp [neutralStop, hg]

/-- One supervisor step preserves the retry bound. -/
theorem step_retryCount_le (maxR : Int) (a : Act) (s : SupState)
    (h : (s.runner.retryCount : Int) ≤ maxR) :
    ((step maxR a s).runner.retryCount : Int) ≤ maxR := by
  cases a with
  | backendDead rc => simpa [step, applyBackendDeath_retryCount] using h
  | retryTick =>
    rw [step]
    split
    · rename_i hg
      obtain ⟨-, -, -, hlt⟩ := hg
      simp only [spawnReset]
      omega
    · exact h
  | watchdogSoft => rw [step]; split <;> simpa using h
  | watchdogFail => rw [step]; split <;> simpa using h
  | killByUser => rw [step]; split <;> simpa using h
  | gracefulRequest => rw [step]; split <;> simpa using h
  | shutdownResponse => simpa [step] using h
  | hardTimeout => rw [step]; split <;> simpa using h

/-- Any run of supervisor steps preserves the retry bound. -/
theorem runActs_retryCount_le (maxR : Int) (acts : List Act) :
    ∀ s : SupState, (s.runner.retryCount : Int) ≤ maxR →
      ((runActs maxR acts s).runner.retryCount : Int) ≤ maxR := by
  induction acts with
  | nil => intro s h; exact h
  | cons a acts ih =>
    intro s h
    exact ih (step maxR a s) (step_retryCount_le maxR a s h)

/-- A stopped agent with a cleared retryable flag stays stopped, keeps
the flag cleared and keeps its retry count, under every action. -/
theorem step_stopped_frozen (maxR : Int) (a : Act) (s : SupState)
    (h1 : s.runner.isRunning = false) (h2 : s.runner.retryable = false) :
    (step maxR a s).runner.isRunning = false ∧
    (step maxR a s).runner.retryable = false ∧
    (step maxR a s).runner.retryCount = s.runner.retryCount := by
  cases a with
  | backendDead rc => simp [step, applyBackendDeath_not_running s.runner rc h1, h1, h2]
  | watchdogSoft => rw [step, if_neg (by simp [h1])]; exact ⟨h1, h2, rfl⟩
  | watchdogFail => rw [step, if_neg (by simp [h1])]; exact ⟨h1, h2, rfl⟩
  | retryTick => rw [step, if_neg (by simp [h2])]; exact ⟨h1, h2, rfl⟩
  | killByUser => rw [step, if_neg (by simp [h1])]; exact ⟨h1, h2, rfl⟩
  | gracefulRequest => rw [step, if_neg (by simp [h1])]; exact ⟨h1, h2, rfl⟩
  | shutdownResponse => simp [step]
  | hardTimeout => rw [step, if_neg (by simp [h1])]; exact ⟨h1, h2, rfl⟩

/-- A stopped agent with a cleared retryable flag is never respawned by
any later action sequence: its retry count never changes again. -/
theorem runActs_stopped_frozen (maxR : Int) (acts : List Act) :
    ∀ s : SupState, s.runner.isRunning = false → s.runner.retryable = false →
      (runActs maxR acts s).runner.retryCount = s.runner.retryCount := by
  induction acts with
  | nil => intro s _ _; rfl
  | cons a acts ih =>
    intro s h1 h2
    obtain ⟨g1, g2, g3⟩ := step_stopped_frozen maxR a s h1 h2
    rw [runActs, List.foldl_cons]
    have := ih (step maxR a s) g1 g2
    rw [runActs] at this
    rw [this, g3]

/-- C5: max_retries is the environment value clamped into 0 to 5 with
default 1; along every supervisor trace from a fresh spawn the retry
count never exceeds max_retries; the retry count changes only through
a retry of a failed, retryable agent within budget while the
supervisor is not quitting; and an agent stopped by operator
force-kill, by hard timeout, by a shutdown response, or whose backend
dies after a graceful shutdown request, ends not running with
retryable cleared, after which no action sequence ever changes its
retry count (no respawn). -/
theorem retry_policy_invariants (e : EnvVal Int) (acts : List Act)
    (name mode : String) (s : SupState) (a : Act) :
    (0 ≤ maxRetriesOf e ∧ maxRetriesOf e ≤ 5 ∧ maxRetriesOf (some none) = 1) ∧
    ((runActs (maxRetriesOf e) acts
        ⟨initialRunner name mode, false⟩).runner.retryCount : Int)
      ≤ maxRetriesOf e ∧
    ((step (maxRetriesOf e) a s).runner.retryCount ≠ s.runner.retryCount →
      a = .retryTick ∧ s.runner.status = "failed" ∧
      s.runner.retryable = true ∧ s.quit = false ∧
      (s.runner.retryCount : Int) < maxRetriesOf e) ∧
    (s.runner.isRunning = false → s.runner.retryable = false →
      (runActs (maxRetriesOf e) acts s).runner.retryCount
        = s.runner.retryCount) ∧
    (s.runner.isRunning = true →
      ((step (maxRetriesOf e) .killByUser s).runner.isRunning = false ∧
       (step (maxRetriesOf e) .killByUser s).runner.retryable = false) ∧
      ((step (maxRetriesOf e) .hardTimeout s).runner.isRunning = false ∧
       (step (maxRetriesOf e) .hardTimeout s).runner.retryable = false) ∧
      (s.runner.stopMode = "graceful_shutdown" →
        ∀ rc, (step (maxRetriesOf e) (.backendDead rc) s).runner.isRunning = false ∧
          (step (maxRetriesOf e) (.backendDead rc) s).runner.retryable = false)) ∧
    ((step (maxRetriesOf e) .shutdownResponse s).runner.isRunning = false ∧
     (step (maxRetriesOf e) .shutdownResponse s).runner.retryable = false) := by
  refine ⟨⟨?_, ?_, ?_⟩, ?_, ?_, ?_, ?_, ?_⟩
  · unfold maxRetriesOf; exact le_max_left _ _
  · unfold maxRetriesOf envOr
    rcases e with _ | e
    · simp
    · rcases e with _ | v
      · simp
      · simp [max_le_iff, min_le_iff]
  · rfl
  · exact runActs_retryCount_le (maxRetriesOf e) acts _
      (by simp [initialRunner, spawnReset, maxRetriesOf, le_max_iff])
  · intro hchange
    cases a with
    | backendDead rc =>
      exact absurd (by simp [step, applyBackendDeath_retryCount]) hchange
    | retryTick =>
      rw [step] at hchange
      by_cases hg : s.quit = false ∧ s.runner.status = "failed" ∧
          s.runner.retryable = true ∧ (s.runner.retryCount : Int) < maxRetriesOf e
      · exact ⟨rfl, hg.2.1, hg.2.2.1, hg.1, hg.2.2.2⟩
      · rw [if_neg hg] at hchange; exact absurd rfl hchange
    | watchdogSoft =>
      rw [step] at hchange; exact absurd (by split <;> rfl) hchange
    | watchdogFail =>
      rw [step] at hchange; exact absurd (by split <;> rfl) hchange
    | killByUser =>
      rw [step] at hchange; exact absurd (by split <;> rfl) hchange
    | gracefulRequest =>
      rw [step] at hchange; exact absurd (by split <;> rfl) hchange
    | shutdownResponse =>
      exact absurd (by simp [step]) hchange
    | hardTimeout =>
      rw [step] at hchange; exact absurd (by split <;> rfl) hchange
  · exact fun h1 h2 => runActs_stopped_frozen (maxRetriesOf e) acts s h1 h2
  · intro hrun
    refine ⟨?_, ?_, ?_⟩
    · rw [step, if_pos hrun]; exact ⟨rfl, rfl⟩
    · rw [step, if_pos hrun]; exact ⟨rfl, rfl⟩
    · intro hgrace rc
      rw [step]
      exact applyBackendDeath_graceful s.runner rc hrun hgrace
  · simp [step]

/-- C5 witness: the invariants applied to a concrete trace in which a
watchdog failure is retried once and a second retry is refused by the
budget, and to a concrete force-killed agent. -/
theorem retry_policy_invariants_witness :
    ((runActs (maxRetriesOf none)
        [Act.watchdogSoft, Act.watchdogFail, Act.retryTick, Act.watchdogSoft,
         Act.watchdogFail, Act.retryTick]
        ⟨initialRunner "A" "parallel", false⟩).runner.retryCount : Int)
      ≤ maxRetriesOf none ∧
    (step (maxRetriesOf none) Act.killByUser
      ⟨initialRunner "A" "parallel", false⟩).runner.retryable = false :=
  ⟨(retry_policy_invariants none
      [Act.watchdogSoft, Act.watchdogFail, Act.retryTick, Act.watchdogSoft,
       Act.watchdogFail, Act.retryTick]
      "A" "parallel" ⟨initialRunner "A" "parallel", false⟩ Act.retryTick).2.1,
   ((retry_policy_invariants none [] "A" "parallel"
      ⟨initialRunner "A" "parallel", false⟩ Act.retryTick).2.2.2.2.1
      (by decide)).1.2⟩

/-! ## C4 -/

/-- C4 counterexample: a line-split schedule of a total output in which
a WRITE_FILE region textually overlaps a RUN_COMMAND region executes a
different side-effect set than feeding the same total at once.  Line
by line, the RUN_COMMAND pair completes first and a shell command runs;
in one chunk, the WRITE_FILE scan runs first, consumes the command
terminator into the written payload, and a file write runs instead. -/
theorem stream_schedule_dependent_effects :
    ("<<RUN_COMMAND>>A<<WRITE_FILE path=\"p\">>B<<END_COMMAND>>\n" ++
        "C<<END_WRITE>>\n" =
      "<<RUN_COMMAND>>A<<WRITE_FILE path=\"p\">>B<<END_COMMAND>>\nC<<END_WRITE>>\n") ∧
    feedSchedule []
      ["<<RUN_COMMAND>>A<<WRITE_FILE path=\"p\">>B<<END_COMMAND>>\n",
       "C<<END_WRITE>>\n"] =
      [Effect.commandExec "A<<WRITE_FILE path=\"p\">>B", Effect.tailUnparsed 16] ∧
    feedSchedule []
      ["<<RUN_COMMAND>>A<<WRITE_FILE path=\"p\">>B<<END_COMMAND>>\nC<<END_WRITE>>\n"] =
      [Effect.fileWrite "p" "B<<END_COMMAND>>\nC",
       Effect.orphanTags ["<<RUN_COMMAND>>"], Effect.tailUnparsed 17] ∧
    feedSchedule []
      ["<<RUN_COMMAND>>A<<WRITE_FILE path=\"p\">>B<<END_COMMAND>>\n",
       "C<<END_WRITE>>\n"] ≠
    feedSchedule []
      ["<<RUN_COMMAND>>A<<WRITE_FILE path=\"p\">>B<<END_COMMAND>>\nC<<END_WRITE>>\n"] := by
  refine ⟨rfl, by decide, by decide, by decide⟩

/-- C4 (amended): feeding schedules of the same total output are not
equivalent in general (see the counterexample), but the specific
instance of the claim holds: the string
double-angle WRITE_FILE path x double-angle hi END_WRITE, cut into two
chunks at any of its 39 positions, executes exactly one file write of
content hi, identical to the single-chunk feed including its audit
record. -/
theorem write_tag_split_invariance :
    ∀ i : Nat, i ≤ 38 →
      feedSchedule []
        [⟨"<<WRITE_FILE path=\"x\">>hi<<END_WRITE>>".data.take i⟩,
         ⟨"<<WRITE_FILE path=\"x\">>hi<<END_WRITE>>".data.drop i⟩] =
        [Effect.fileWrite "x" "hi"] ∧
      feedSchedule [] ["<<WRITE_FILE path=\"x\">>hi<<END_WRITE>>"] =
        [Effect.fileWrite "x" "hi"] := by
  decide

/-- C4 witness: the split-invariance applied at the cut position 20,
in the middle of the path attribute. -/
theorem write_tag_split_invariance_witness :
    feedSchedule []
      [⟨"<<WRITE_FILE path=\"x\">>hi<<END_WRITE>>".data.take 20⟩,
       ⟨"<<WRITE_FILE path=\"x\">>hi<<END_WRITE>>".data.drop 20⟩] =
      [Effect.fileWrite "x" "hi"] :=
  (write_tag_split_invariance 20 (by decide)).1

/-! ## C7: parser lemmas -/

/-- A list is a prefix of itself followed by anything. -/
theorem lpre_append_self (l t : List Char) : lpre l (l ++ t) = true := by
  induction l with
  | nil => rfl
  | cons a as ih => simpa [lpre] using ih

/-- A pattern starting with c cannot match at a character other than
c. -/
theorem lpre_head_ne (c : Char) (l2 : List Char) (x : Char)
    (rest : List Char) (h : x ≠ c) : lpre (c :: l2) (x :: rest) = false := by
  simp only [lpre, Bool.and_eq_false_iff]
  left
  simpa using fun hcx => h hcx.symm

/-- Splitting at the first occurrence of a marker that starts with a
character absent from the part before it finds exactly the boundary
occurrence. -/
theorem splitFirst_boundary (c : Char) (lit2 P tail : List Char)
    (hP : ∀ x ∈ P, x ≠ c) :
    splitFirst (c :: lit2) (P ++ (c :: lit2) ++ tail) = some (P, tail) := by
  induction P with
  | nil =>
    simp only [List.nil_append]
    rw [List.cons_append, splitFirst, ← List.cons_append,
      if_pos (lpre_append_self (c :: lit2) tail), List.drop_left]
  | cons x P ih =>
    have hx : x ≠ c := hP x (List.mem_cons_self x P)
    have hP2 : ∀ y ∈ P, y ≠ c := fun y hy => hP y (List.mem_cons_of_mem x hy)
    rw [List.cons_append, List.cons_append, splitFirst,
      if_neg (by simp [lpre_head_ne c lit2 x _ hx]), ih hP2]
    rfl

/-- takeWhile and dropWhile at a quote boundary: a quote-free part
followed by a quote splits exactly there. -/
theorem takeWhile_quote_boundary (p rest : List Char)
    (hp : ∀ x ∈ p, x ≠ '"') :
    (p ++ '"' :: rest).takeWhile (fun ch => ch != '"') = p ∧
    (p ++ '"' :: rest).dropWhile (fun ch => ch != '"') = '"' :: rest := by
  induction p with
  | nil => simp [List.takeWhile_cons, List.dropWhile_cons]
  | cons x p ih =>
    have hx : x ≠ '"' := hp x (List.mem_cons_self x p)
    have hp2 : ∀ y ∈ p, y ≠ '"' := fun y hy => hp y (List.mem_cons_of_mem x hy)
    obtain ⟨h1, h2⟩ := ih hp2
    refine ⟨?_, ?_⟩
    · rw [List.cons_append, List.takeWhile_cons, if_pos (by simpa using hx), h1]
    · rw [List.cons_append, List.dropWhile_cons, if_pos (by simpa using hx), h2]

/-- Extraction from an empty buffer finds nothing, for a pattern with a
nonempty opener. -/
theorem tagExtractF_nil (oc : Char) (ol2 : List Char) (withAttr : Bool)
    (closeL : List Char) (fuel : Nat) :
    tagExtractF (oc :: ol2) withAttr closeL fuel [] = ([], []) := by
  cases fuel <;> rfl

/-- A successful match at the head of the buffer is what the scan
returns, with an empty pre part. -/
theorem tagScan_of_matchAt (openL : List Char) (withAttr : Bool)
    (closeL : List Char) (s : List Char) (a c r : List Char)
    (h : tagMatchAt openL withAttr closeL s = some (a, c, r)) :
    tagScan openL withAttr closeL s = some ([], a, c, r) := by
  cases s with
  | nil => rw [tagScan, h]
  | cons x rest => rw [tagScan, h]

/-- The head match of a buffer that is exactly one complete WRITE_FILE
tag: attribute p, payload P, nothing after. -/
theorem tagMatchAt_single_write (p P : List Char) (hp : p ≠ [])
    (hpq : ∀ x ∈ p, x ≠ '"') (hP : ∀ x ∈ P, x ≠ '<') :
    tagMatchAt wfOpen true ewClose
      (wfOpen ++ (p ++ '"' :: '>' :: '>' :: (P ++ ewClose))) = some (p, P, []) := by
  have hew : ewClose = '<' :: "<END_WRITE>>".data := rfl
  have hsplit : splitFirst ewClose (P ++ ewClose) = some (P, []) := by
    have h := splitFirst_boundary '<' "<END_WRITE>>".data P [] hP
    rw [List.append_nil] at h
    rw [hew]
    exact h
  have h1 : (wfOpen ++ (p ++ '"' :: '>' :: '>' :: (P ++ ewClose))).drop
      wfOpen.length = p ++ '"' :: '>' :: '>' :: (P ++ ewClose) :=
    List.drop_left _ _
  obtain ⟨htake, hdrop⟩ :=
    takeWhile_quote_boundary p ('>' :: '>' :: (P ++ ewClose)) hpq
  rw [tagMatchAt, if_pos (lpre_append_self wfOpen _)]
  simp only [h1, htake, hdrop]
  rw [if_neg hp,
    if_pos (show lpre ['"', '>', '>'] ('"' :: '>' :: '>' :: (P ++ ewClose))
      = true from rfl)]
  show (splitFirst ewClose (P ++ ewClose)).map (fun pr => (p, pr.1, pr.2))
      = some (p, P, [])
  rw [hsplit]
  rfl

/-- Extraction on the single-tag WRITE_FILE buffer yields that one
match and an empty residual buffer. -/
theorem tagExtract_single_write (p P : List Char) (hp : p ≠ [])
    (hpq : ∀ x ∈ p, x ≠ '"') (hP : ∀ x ∈ P, x ≠ '<') :
    tagExtract wfOpen true ewClose
      (wfOpen ++ (p ++ '"' :: '>' :: '>' :: (P ++ ewClose))) = ([(p, P)], []) := by
  have hscan := tagScan_of_matchAt wfOpen true ewClose _ p P []
    (tagMatchAt_single_write p P hp hpq hP)
  have hlen : (wfOpen ++ (p ++ '"' :: '>' :: '>' :: (P ++ ewClose))).length + 1 =
      Nat.succ ((wfOpen ++ (p ++ '"' :: '>' :: '>' :: (P ++ ewClose))).length) := rfl
  have hwf : wfOpen = '<' :: "<WRITE_FILE path=\"".data := rfl
  rw [tagExtract, hlen, tagExtractF, hscan]
  simp [hwf, tagExtractF_nil]

/-- The no-whitespace property at the head of a dropWhile result. -/
theorem head_dropWhile_not (q : Char → Bool) (l : List Char) (c : Char)
    (h : (l.dropWhile q).head? = some c) : q c = false := by
  induction l with
  | nil => simp [List.dropWhile] at h
  | cons x xs ih =>
    rw [List.dropWhile_cons] at h
    by_cases hx : q x = true
    · rw [if_pos hx] at h; exact ih h
    · rw [if_neg hx] at h
      simp only [List.head?_cons, Option.some.injEq] at h
      subst h
      simpa using hx

/-- The last element survives dropWhile when the result is nonempty. -/
theorem getLast?_dropWhile (q : Char → Bool) (l : List Char) (c : Char)
    (h : (l.dropWhile q).getLast? = some c) : l.getLast? = some c := by
  induction l with
  | nil => simp [List.dropWhile] at h
  | cons x xs ih =>
    rw [List.dropWhile_cons] at h
    by_cases hx : q x = true
    · rw [if_pos hx] at h
      cases xs with
      | nil => simp [List.dropWhile] at h
      | cons y ys => rw [List.getLast?_cons_cons]; exact ih h
    · rw [if_neg hx] at h; exact h

/-- The head of a stripped list is not whitespace. -/
theorem pyStripL_head_not_ws (l : List Char) (c : Char)
    (h : (pyStripL l).head? = some c) : isPyWS c = false := by
  unfold pyStripL at h
  rw [List.head?_reverse] at h
  have h2 := getLast?_dropWhile isPyWS _ c h
  rw [List.getLast?_reverse] at h2
  exact head_dropWhile_not isPyWS l c h2

/-- The last element of a stripped list is not whitespace. -/
theorem pyStripL_getLast_not_ws (l : List Char) (c : Char)
    (h : (pyStripL l).getLast? = some c) : isPyWS c = false := by
  unfold pyStripL at h
  rw [List.getLast?_reverse] at h
  exact head_dropWhile_not isPyWS _ c h

/-- The single-newline strip is a no-op after a full strip, since a
stripped payload neither starts nor ends with a newline. -/
theorem stripOneNL_pyStripL (l : List Char) :
    stripOneNL (pyStripL l) = pyStripL l := by
  have h1 : ¬ (pyStripL l).head? = some '\n' := fun h => by
    have := pyStripL_head_not_ws l '\n' h
    simp [isPyWS] at this
  have h2 : ¬ (pyStripL l).getLast? = some '\n' := fun h => by
    have := pyStripL_getLast_not_ws l '\n' h
    simp [isPyWS] at this
  simp only [stripOneNL, if_neg h1, if_neg h2]

/-! ## C7 -/

/-- C7 counterexample: the payload (space)hi(space) has no leading or
trailing newline, so the claim requires it to be written unchanged;
the code calls str.strip() first and writes hi, discarding the
surrounding spaces. -/
theorem write_file_strips_all_whitespace :
    parseStreaming [] "<<WRITE_FILE path=\"x\">> hi <<END_WRITE>>".data false =
      ([Effect.fileWrite "x" "hi"], []) ∧
    ("hi" : String) ≠ " hi " := by
  refine ⟨by decide, by decide⟩

/-- C7 (amended): for a complete WRITE_FILE tag with a nonempty
quote-free path and an angle-bracket-free payload within the 1 MiB
limit, the parser executes exactly one file write whose content is the
payload with all leading and trailing whitespace stripped, in the
sense of Python str.strip; the subsequent single leading/trailing
newline strip of the source is a no-op after that. -/
theorem write_file_payload_written_stripped (roster : List String)
    (p P : List Char) (hp : p ≠ []) (hpq : ∀ x ∈ p, x ≠ '"')
    (hP : ∀ x ∈ P, x ≠ '<') (hsize : (pyStripL P).length ≤ 1048576) :
    parseStreaming roster (wfOpen ++ (p ++ '"' :: '>' :: '>' :: (P ++ ewClose)))
        false = ([Effect.fileWrite ⟨p⟩ ⟨pyStripL P⟩], []) := by
  have hrc : rcOpen = '<' :: "<RUN_COMMAND>>".data := rfl
  have hsm : smOpen = '<' :: "<SEND_MESSAGE to=\"".data := rfl
  have hbc : bcOpen = '<' :: "<BROADCAST>>".data := rfl
  unfold parseStreaming
  rw [tagExtract_single_write p P hp hpq hP]
  simp only [tagExtract, hrc, hsm, hbc, tagExtractF_nil]
  have hw : writeEffect p P = .fileWrite ⟨p⟩ ⟨pyStripL P⟩ := by
    unfold writeEffect
    rw [if_neg (by omega), stripOneNL_pyStripL]
  simp [hw]

/-- C7 witness: the amended write theorem on the path x and the payload
hello world followed by a space. -/
theorem write_file_payload_written_stripped_witness :
    parseStreaming [] (wfOpen ++ (['x'] ++ '"' :: '>' :: '>' ::
        ("hello world ".data ++ ewClose))) false =
      ([Effect.fileWrite ⟨['x']⟩ ⟨pyStripL "hello world ".data⟩], []) :=
  write_file_payload_written_stripped [] ['x'] "hello world ".data
    (by decide) (by decide) (by decide) (by decide)

/-- C3 witness: the classification applied to a concrete running agent
and a non-zero exit code. -/
theorem backend_death_classification_witness :
    (applyBackendDeath
      { name := "A", mode := "parallel", status := "running", isRunning := true,
        retryCount := 0, retryable := false, stopMode := "none",
        sawCompletionSignal := false, failureReason := "" } (some 3)).status
      = "failed" :=
  (backend_death_classification _ 3 "a" "x" rfl).2.1 (by decide)

end Swarm
